import Mathlib

/-!
Verification of the prescription backend (`src/app.py`).

The file shallowly embeds the core logic of `app.py`:
* the price-normalization pipeline building the `Price_Clean` column
  (lines 51-64 of `app.py`);
* the catalog cleaning step producing `df_cleaned` (lines 64-72);
* the query handlers `get_options` (lines 93-109) and `get_details`
  (lines 112-147);
* the cost computation and document assembly inside `generate_pdf`
  (lines 150-222).

Prices are modelled as rationals (`ℚ`): every concrete value the pipeline
manipulates is an exact decimal, so `ℚ` represents the Python floats of the
source faithfully on the inputs under study.  Python-level dynamic values
coming from JSON are modelled by the `PyVal` type; a missing dictionary key
is an `Option.none`.
-/

namespace Prescription

/-- Python `\s` on the characters that occur here (ASCII whitespace).
Used to model the `\s*` parts of the regex on line 54 of `app.py` and the
whitespace stripping of `float()` / `int()`. -/
def isPySpace (c : Char) : Bool :=
  c = ' ' || c = '\t' || c = '\n' || c = '\x0b' || c = '\x0c' || c = '\r'

/-- After a `:` has been consumed, finish matching the regex
`:\s*৳\s*` of line 54: greedily skip whitespace, require the currency
marker `৳`, greedily skip whitespace; return the remainder after the match. -/
def matchAfterColon (cs : List Char) : Option (List Char) :=
  match cs.dropWhile isPySpace with
  | '৳' :: rest => some (rest.dropWhile isPySpace)
  | _ => none

/-- One match attempt of the pattern `.*?:\s*৳\s*` starting at the head of
`cs` (the non-greedy `.*?` consumes the fewest characters, and `.` does not
cross a newline).  Returns the remainder after the matched span. -/
def tryMatchFrom : List Char → Option (List Char)
  | [] => none
  | c :: rest =>
    match (if c = ':' then matchAfterColon rest else none) with
    | some r => some r
    | none => if c = '\n' then none else tryMatchFrom rest

/-- `re.sub` scanning loop for `str.replace(r'.*?:\s*৳\s*', '', regex=True)`
(line 54): at each position try a match; on success drop the matched span
and continue after it, otherwise keep the character.  `fuel` starts at the
length of the list; every successful match consumes at least two
characters, so the fuel never runs out. -/
def subCurrencyAux : Nat → List Char → List Char
  | 0, cs => cs
  | _ + 1, [] => []
  | fuel + 1, c :: rest =>
    match tryMatchFrom (c :: rest) with
    | some r => subCurrencyAux fuel r
    | none => c :: subCurrencyAux fuel rest

/-- Step 1 of the price pipeline: strip every occurrence of a label/currency
prefix matching `.*?:\s*৳\s*` (line 54 of `app.py`). -/
def subCurrency (s : String) : List Char :=
  subCurrencyAux s.length s.toList

/-- Step 2 (line 55): `str.replace(r'[^\d\.]', '', regex=True)` — keep only
digits and decimal points.  (`\d` is modelled as ASCII digits; on non-ASCII
digits Python keeps the character but the final numeric parse then fails,
so both models coerce such inputs to `0`.) -/
def filterDigitsDots (cs : List Char) : List Char :=
  cs.filter (fun c => c.isDigit || c = '.')

/-- Step 3 (line 56): `.replace('', '0')` — a cell that became the empty
string is replaced by `'0'`. -/
def emptyToZero (cs : List Char) : List Char :=
  if cs = [] then ['0'] else cs

/-- The value of `x[:x.find('.', x.find('.') + 1)]`: the prefix of `cs` up
to (excluding) the second decimal point. -/
def takeToSecondDot (cs : List Char) : List Char :=
  match cs.dropWhile (fun c => ¬ c = '.') with
  | [] => cs
  | d :: rest => cs.takeWhile (fun c => ¬ c = '.') ++ d :: rest.takeWhile (fun c => ¬ c = '.')

/-- Step 4 (lines 60-62): fix multi-dot strings — if more than one decimal
point is present, keep only the prefix up to the second one. -/
def fixMultiDot (cs : List Char) : List Char :=
  if cs.count '.' ≤ 1 then cs else takeToSecondDot cs

/-- Numeric value of a list of ASCII digits, most significant first. -/
def digitsToNat (cs : List Char) : Nat :=
  cs.foldl (fun a c => 10 * a + (c.toNat - '0'.toNat)) 0

/-- Step 5 (line 64): `pd.to_numeric(·, errors='coerce')` restricted to the
strings that reach it (only digits and at most one decimal point remain
after steps 2-4).  A string with any other character, several dots, or no
digit at all fails to parse (`none`, i.e. `NaN`). -/
def to_numericQ (cs : List Char) : Option ℚ :=
  if cs.all (fun c => c.isDigit || c = '.') && cs.count '.' ≤ 1 && cs.any (fun c => c.isDigit) then
    let ip := cs.takeWhile (fun c => ¬ c = '.')
    let fp := (cs.dropWhile (fun c => ¬ c = '.')).drop 1
    some (mkRat (digitsToNat ip * 10 ^ fp.length + digitsToNat fp) (10 ^ fp.length))
  else
    none

/-- The complete `Price_Clean` pipeline of lines 51-64 of `app.py`:
strip currency prefix, keep digits and dots, empty ↦ `'0'`, truncate at a
second decimal point, parse, and `fillna(0.0)`. -/
def Price_Clean (s : String) : ℚ :=
  (to_numericQ (fixMultiDot (emptyToZero (filterDigitsDots (subCurrency s))))).getD 0

/-! ### Python dynamic values

`generate_pdf` reads `price_raw` and `quantity` out of client JSON with
`m.get(...)` and feeds them to `float()` / `int()` (line 172 of `app.py`).
`PyVal` models the possible JSON values; `pnull` is JSON `null`, `pother`
stands for arrays and objects (on which `float()`/`int()` raise). -/

inductive PyVal where
  | pstr (s : String)
  | pint (n : ℤ)
  | pfloat (q : ℚ)
  | pbool (b : Bool)
  | pnull
  | pother
deriving DecidableEq

/-- Python `str.strip()` (both ends) on a character list. -/
def stripChars (cs : List Char) : List Char :=
  ((cs.dropWhile isPySpace).reverse.dropWhile isPySpace).reverse

/-- Python `str.strip()`. -/
def pyStrip (s : String) : String :=
  ⟨stripChars s.toList⟩

/-- Python `str.lower()` (ASCII; the catalog keys under study are ASCII). -/
def pyLower (s : String) : String :=
  ⟨s.toList.map Char.toLower⟩

/-- Python `str.title()`: the first letter of each alphabetic run is
upper-cased, the rest lower-cased. -/
def pyTitleAux : List Char → Bool → List Char
  | [], _ => []
  | c :: cs, startWord =>
    (if c.isAlpha then (if startWord then c.toUpper else c.toLower) else c) ::
      pyTitleAux cs (¬ c.isAlpha)

/-- Python `str.title()`. -/
def pyTitle (s : String) : String :=
  ⟨pyTitleAux s.toList true⟩

/-- The optional exponent part accepted by Python `float()`: either nothing,
or `e`/`E`, an optional sign, and at least one digit. -/
def parseExpPart : List Char → Option ℤ
  | [] => some 0
  | c :: rest =>
    if c = 'e' ∨ c = 'E' then
      match rest with
      | '+' :: ds => if ds ≠ [] ∧ ds.all Char.isDigit then some (digitsToNat ds) else none
      | '-' :: ds => if ds ≠ [] ∧ ds.all Char.isDigit then some (-(digitsToNat ds : ℤ)) else none
      | ds => if ds ≠ [] ∧ ds.all Char.isDigit then some (digitsToNat ds) else none
    else none

/-- `(num / den) * 10 ^ e` as a rational, built directly with `mkRat`. -/
def applyExp (num : ℤ) (den : ℕ) (e : ℤ) : ℚ :=
  if 0 ≤ e then mkRat (num * 10 ^ e.toNat) den else mkRat num (den * 10 ^ (-e).toNat)

/-- The unsigned part of a Python `float()` literal: `digits[.digits]` or
`.digits`, followed by an optional exponent.  At least one digit must be
present.  (Non-finite literals `inf`/`nan` have no counterpart in `ℚ` and
are modelled as parse failures; no claim depends on them.  Underscore
digit separators are likewise not modelled.) -/
def pyFloatCore (cs : List Char) : Option ℚ :=
  let ip := cs.takeWhile Char.isDigit
  let rest := cs.drop ip.length
  let fp := match rest with
    | '.' :: r => r.takeWhile Char.isDigit
    | _ => []
  let rest2 := match rest with
    | '.' :: r => r.drop (r.takeWhile Char.isDigit).length
    | r => r
  if ip.length + fp.length = 0 then none
  else
    match parseExpPart rest2 with
    | some e => some (applyExp (digitsToNat ip * 10 ^ fp.length + digitsToNat fp) (10 ^ fp.length) e)
    | none => none

/-- Python `float(s)` for a string argument: strip whitespace, optional
sign, then the numeric literal. -/
def pyFloatOfString (s : String) : Option ℚ :=
  match stripChars s.toList with
  | '+' :: rest => pyFloatCore rest
  | '-' :: rest => (pyFloatCore rest).map (fun q => -q)
  | rest => pyFloatCore rest

/-- Python `int(s)` for a string argument: strip whitespace, optional sign,
then at least one digit (no decimal point, no exponent). -/
def pyIntOfString (s : String) : Option ℤ :=
  match stripChars s.toList with
  | '+' :: rest =>
    if rest ≠ [] ∧ rest.all Char.isDigit then some (digitsToNat rest) else none
  | '-' :: rest =>
    if rest ≠ [] ∧ rest.all Char.isDigit then some (-(digitsToNat rest : ℤ)) else none
  | rest =>
    if rest ≠ [] ∧ rest.all Char.isDigit then some (digitsToNat rest) else none

/-- Truncation toward zero, the behaviour of Python `int()` on a float. -/
def ratTrunc (q : ℚ) : ℤ :=
  Int.tdiv q.num q.den

/-- Python `float(v)` on a JSON value: `none` models a raised exception. -/
def pyFloat : PyVal → Option ℚ
  | .pstr s => pyFloatOfString s
  | .pint n => some (n : ℚ)
  | .pfloat q => some q
  | .pbool b => some (if b then 1 else 0)
  | .pnull => none
  | .pother => none

/-- Python `int(v)` on a JSON value: `none` models a raised exception. -/
def pyInt : PyVal → Option ℤ
  | .pstr s => pyIntOfString s
  | .pint n => some n
  | .pfloat q => some (ratTrunc q)
  | .pbool b => some (if b then 1 else 0)
  | .pnull => none
  | .pother => none

/-! ### Cost computation (`generate_pdf`, lines 169-176)

```
total_cost = 0
for m in medicines:
    try:
        subtotal = float(m.get('price_raw', 0)) * int(m.get('quantity', 1))
        m['subtotal'] = subtotal
        total_cost += subtotal
    except:
        m['subtotal'] = 0
```
-/

/-- The subtotal the loop body computes for one line:
`float(m.get('price_raw', 0)) * int(m.get('quantity', 1))`, and `0` when
either conversion raises (the bare `except` branch, which also adds nothing
to the running total). -/
def priceLine (price_raw quantity : Option PyVal) : ℚ :=
  match pyFloat (price_raw.getD (.pint 0)), pyInt (quantity.getD (.pint 1)) with
  | some p, some n => p * (n : ℚ)
  | _, _ => 0

/-- One element of the `medicines` JSON list, restricted to the keys the
cost loop reads.  `client_subtotal` is any incoming `'subtotal'` value;
the loop overwrites it in both branches without ever reading it. -/
structure Medicine where
  price_raw : Option PyVal
  quantity : Option PyVal
  client_subtotal : Option PyVal
deriving DecidableEq

/-- Server-side subtotal of one medicine line. -/
def lineSubtotal (m : Medicine) : ℚ :=
  priceLine m.price_raw m.quantity

/-- The loop's effect on the medicines list: every line is kept and its
`'subtotal'` key is overwritten with the recomputed value. -/
def processMedicines (ms : List Medicine) : List (Medicine × ℚ) :=
  ms.map (fun m => (m, lineSubtotal m))

/-- The loop's running total: starts at `0`, adds each successful
subtotal (the `except` branch contributes nothing, i.e. `0`). -/
def totalCost (ms : List Medicine) : ℚ :=
  ms.foldl (fun acc m => acc + lineSubtotal m) 0

/-! ### The catalog (`df_cleaned`, lines 42-78 of `app.py`) -/

/-- A raw CSV row, restricted to the columns the app reads.  `Strength` is
optional: `none` models a `NaN` cell, which is what
`dropna(subset=['Strength'])` removes. -/
structure RawRecord where
  Medicine_Name : String
  Brand : String
  Generic : String
  Strength : Option String
  Type' : String
  Price : String
deriving DecidableEq

/-- A row of `df_cleaned` after the cleaning block. -/
structure Record where
  Medicine_Name : String
  Brand : String
  Generic_Clean : String
  Strength : String
  Type' : String
  Price_Clean : ℚ
deriving DecidableEq

/-- The per-row cleaning of lines 51-72: price through the `Price_Clean`
pipeline, `Generic` stripped and lower-cased into `Generic_Clean`,
`Strength` and `Type` stripped with case preserved. -/
def cleanRecord (r : RawRecord) : Record :=
  { Medicine_Name := r.Medicine_Name
  , Brand := r.Brand
  , Generic_Clean := pyLower (pyStrip r.Generic)
  , Strength := pyStrip (r.Strength.getD "")
  , Type' := pyStrip r.Type'
  , Price_Clean := Price_Clean r.Price }

/-- Building `df_cleaned`: rows whose `Strength` cell is `NaN` are dropped
(line 67, **before** the strip of line 71), the rest are cleaned. -/
def buildIndex (raws : List RawRecord) : List Record :=
  (raws.filter (fun r => r.Strength.isSome)).map cleanRecord

/-- Sorted unique values, the model of
`sorted(series.dropna().unique().tolist())` (lines 103-104). -/
def sortedUnique (l : List String) : List String :=
  l.dedup.mergeSort (fun a b => a ≤ b)

/-- `/get_options` (lines 93-109): the generic key is read with
`data.get('generic', '')` (a missing key gives `''`), stripped and
lower-cased; an empty key returns two empty lists, otherwise the sorted
unique strengths and types of the matching rows. -/
def get_options (idx : List Record) (generic : Option String) : List String × List String :=
  let g := pyLower (pyStrip (generic.getD ""))
  if g = "" then ([], [])
  else
    let filtered := idx.filter (fun r => r.Generic_Clean == g)
    (sortedUnique (filtered.map (fun r => r.Strength)),
     sortedUnique (filtered.map (fun r => r.Type')))

/-- One entry of the `options` list built by `/get_details`
(lines 129-142).  The `price` display string `f"৳ {x:.2f}"` is
presentation-only and not modelled; `price_raw` carries the value. -/
structure LineCandidate where
  generic : String
  medicine_name : String
  brand : String
  price_raw : ℚ
  strength : String
  type : String
  quantity : ℕ
  time_schedule : String
  meal_time : String
deriving DecidableEq

/-- The dictionary `/get_details` builds from one matching row. -/
def mkOption (r : Record) : LineCandidate :=
  { generic := pyTitle r.Generic_Clean
  , medicine_name := r.Medicine_Name
  , brand := r.Brand
  , price_raw := r.Price_Clean
  , strength := r.Strength
  , type := r.Type'
  , quantity := 1
  , time_schedule := "1+1+1"
  , meal_time := "After Meal" }

/-- Result of `/get_details`: either the 404 response
`jsonify({'error': 'No brands found.'}), 404` or the options list. -/
inductive DetailsResult where
  | notFound
  | options (opts : List LineCandidate)
deriving DecidableEq

/-- The filter of lines 120-124: exact equality on the three normalized
fields. -/
def filteredRecords (idx : List Record) (g s t : String) : List Record :=
  idx.filter (fun r => r.Generic_Clean == g && r.Strength == s && r.Type' == t)

/-- `/get_details` (lines 112-147): read the three keys with `.get(·, '')`,
strip (and lower-case the generic), filter; an empty filter result yields
the 404 `notFound` signal, otherwise the candidate list. -/
def get_details (idx : List Record) (generic strength drug_type : Option String) :
    DetailsResult :=
  if (filteredRecords idx (pyLower (pyStrip (generic.getD ""))) (pyStrip (strength.getD ""))
      (pyStrip (drug_type.getD ""))).isEmpty
  then .notFound
  else .options ((filteredRecords idx (pyLower (pyStrip (generic.getD "")))
    (pyStrip (strength.getD "")) (pyStrip (drug_type.getD ""))).map mkOption)

/-! ### Prescription assembly (`generate_pdf`, lines 150-218) -/

/-- The JSON body of a `/generate_pdf` request, restricted to the keys the
handler reads; `none` models a missing key. -/
structure BuildRequest where
  patient_name : Option String
  age : Option String
  sex : Option String
  patient_id : Option String
  doctor_name : Option String
  specialization : Option String
  reg_no : Option String
  phone : Option String
  medicines : Option (List Medicine)
  next_appointment : Option String
deriving DecidableEq

/-- The value set handed to the template on lines 178-192: all request
fields after defaulting, the medicines with their recomputed subtotals,
and the recomputed total.  `current_date` is the injected date stamp
(`datetime.now().strftime(...)` on line 167). -/
structure Document where
  patient_name : String
  age : String
  sex : String
  patient_id : String
  doctor_name : String
  specialization : String
  reg_no : String
  phone : String
  medicines : List (Medicine × ℚ)
  total_cost : ℚ
  next_appointment : String
  current_date : String
deriving DecidableEq

/-- Lines 157-176: apply the `data.get(key, default)` defaulting policy and
recompute the costs. -/
def assembleDoc (req : BuildRequest) (current_date : String) : Document :=
  let meds := req.medicines.getD []
  { patient_name := req.patient_name.getD "Unknown"
  , age := req.age.getD ""
  , sex := req.sex.getD ""
  , patient_id := req.patient_id.getD ""
  , doctor_name := req.doctor_name.getD "Dr. Unknown"
  , specialization := req.specialization.getD ""
  , reg_no := req.reg_no.getD ""
  , phone := req.phone.getD ""
  , medicines := processMedicines meds
  , total_cost := totalCost meds
  , next_appointment := req.next_appointment.getD "As Advised"
  , current_date := current_date }

/-- The JSON payload of `/generate_pdf`: an object or an array. -/
inductive Payload where
  | obj (r : BuildRequest)
  | arr (rs : List BuildRequest)

/-- The empty JSON object `{}` substituted for an empty array on line 155:
every key is missing. -/
def emptyRequest : BuildRequest :=
  ⟨none, none, none, none, none, none, none, none, none, none⟩

/-- Lines 153-155 followed by the assembly:
`if isinstance(data, list): data = data[0] if data else {}`. -/
def generate_pdf (p : Payload) (current_date : String) : Document :=
  match p with
  | .obj r => assembleDoc r current_date
  | .arr [] => assembleDoc emptyRequest current_date
  | .arr (r :: _) => assembleDoc r current_date

/-! ### Concrete data used by witnesses -/

/-- A well-formed raw row (the spec's end-to-end example). -/
def rawGood : RawRecord :=
  { Medicine_Name := "Napa 500"
  , Brand := "Beximco"
  , Generic := " Paracetamol "
  , Strength := some "500mg"
  , Type' := "Tablet"
  , Price := "৳ 5.00" }

/-- A raw row whose `Strength` cell holds only whitespace: it is not `NaN`,
so `dropna` keeps it, and the later strip turns the strength into `""`. -/
def rawBlankStrength : RawRecord :=
  { Medicine_Name := "M"
  , Brand := "B"
  , Generic := "G"
  , Strength := some " "
  , Type' := "T"
  , Price := "5" }

/-- A cleaned catalog row used to exercise the query handlers. -/
def rec0 : Record :=
  { Medicine_Name := "Napa 500"
  , Brand := "Beximco"
  , Generic_Clean := "paracetamol"
  , Strength := "500mg"
  , Type' := "Tablet"
  , Price_Clean := 5 }

end Prescription

namespace Prescription

theorem to_numericQ_nonneg (cs : List Char) (q : ℚ) (h : to_numericQ cs = some q) :
    0 ≤ q := by
  unfold to_numericQ at h
  split at h
  · simp only [Option.some.injEq] at h
    subst h
    rw [Rat.mkRat_eq_div]
    apply div_nonneg
    · exact_mod_cast Int.ofNat_nonneg _
    · positivity
  · exact absurd h (by simp)

/-- Shared helper: the normalized price is never negative. -/
theorem Price_Clean_nonneg (s : String) : 0 ≤ Price_Clean s := by
  unfold Price_Clean
  cases hp : to_numericQ (fixMultiDot (emptyToZero (filterDigitsDots (subCurrency s)))) with
  | none => simp
  | some q => simpa using to_numericQ_nonneg _ q hp

/-- C1.  The price normalizer is total (it is a plain function into `ℚ`: no
error path exists) and non-negative on every input string; a parse failure
yields `0`, and an empty remainder after character filtering also yields
`0`. -/
theorem Price_Clean_total_nonneg :
    (∀ s : String, 0 ≤ Price_Clean s) ∧
    (∀ s : String,
      to_numericQ (fixMultiDot (emptyToZero (filterDigitsDots (subCurrency s)))) = none →
      Price_Clean s = 0) ∧
    (∀ s : String, filterDigitsDots (subCurrency s) = [] → Price_Clean s = 0) := by
  refine ⟨Price_Clean_nonneg, ?_, ?_⟩
  · intro s h
    unfold Price_Clean
    rw [h]
    rfl
  · intro s h
    unfold Price_Clean
    rw [h]
    decide

/-- Witness for C1 at concrete inputs: `"abc"` normalizes to a non-negative
value, and the empty string (whose filtered remainder is empty) normalizes
to `0`. -/
theorem Price_Clean_total_nonneg_witness :
    0 ≤ Price_Clean "abc" ∧ Price_Clean "" = 0 :=
  ⟨Price_Clean_total_nonneg.1 "abc",
   Price_Clean_total_nonneg.2.2 "" (by decide)⟩

/-- C3 counterexample: on `"10.256.00"` the pipeline keeps the prefix up to
the second decimal point, `"10.256"`, so the normalized value is `10.256`,
not `10.25` as the claim states. -/
theorem Price_Clean_multidot_counterexample :
    Price_Clean "10.256.00" ≠ (10.25 : ℚ) := by
  have h : Price_Clean "10.256.00" = mkRat 10256 1000 := by decide
  rw [h, Rat.mkRat_eq_div]
  norm_num

/-- C3 amended: for the malformed raw price `"10.256.00"` the normalizer
keeps the substring up to the start of the second decimal point —
`"10.256"`, i.e. the first integer group and the whole first fractional
group — and returns `10.256`. -/
theorem Price_Clean_multidot :
    Price_Clean "10.256.00" = (10.256 : ℚ) := by
  have h : Price_Clean "10.256.00" = mkRat 10256 1000 := by decide
  rw [h, Rat.mkRat_eq_div]
  norm_num

/-- C9.  A raw price with a label and currency-marker prefix,
`"Price: ৳ 10.25"`, normalizes to `10.25`. -/
theorem Price_Clean_currency_prefix :
    Price_Clean "Price: ৳ 10.25" = (10.25 : ℚ) := by
  have h : Price_Clean "Price: ৳ 10.25" = mkRat 1025 100 := by decide
  rw [h, Rat.mkRat_eq_div]
  norm_num

/-- C2 counterexample: the cost loop performs no positivity check, so a
negative quantity yields a negative subtotal (`12.50 × (-2) = -25`), where
the claim demands subtotal `0` and never a negative charge. -/
theorem priceLine_negative_quantity_counterexample :
    priceLine (some (PyVal.pstr "12.50")) (some (PyVal.pint (-2))) = -25 ∧
    priceLine (some (PyVal.pstr "12.50")) (some (PyVal.pint (-2))) < 0 := by
  have h1 : pyFloat (PyVal.pstr "12.50") = some (mkRat 25 2) := by decide
  have h2 : priceLine (some (PyVal.pstr "12.50")) (some (PyVal.pint (-2))) =
      mkRat 25 2 * ((-2 : ℤ) : ℚ) := by
    simp [priceLine, h1, pyInt]
  rw [h2, Rat.mkRat_eq_div]
  norm_num

/-- C2 amended: the loop fails closed only against *parse errors* — if
`float(price_raw)` or `int(quantity)` raises, the line's subtotal is `0`
and the line is retained in the output list; `priceLine("abc", 3) = 0` and
`priceLine("12.50", 0) = 0` (the latter by multiplication, not by a guard).
Quantities and prices that parse to negative values are accepted and can
produce a negative subtotal (see the counterexample); no positive-integer
check exists. -/
theorem priceLine_failsClosed_amended :
    (∀ pr q : Option PyVal,
        pyFloat (pr.getD (PyVal.pint 0)) = none ∨ pyInt (q.getD (PyVal.pint 1)) = none →
        priceLine pr q = 0) ∧
    (∀ ms : List Medicine, (processMedicines ms).map Prod.fst = ms) ∧
    priceLine (some (PyVal.pstr "abc")) (some (PyVal.pint 3)) = 0 ∧
    priceLine (some (PyVal.pstr "12.50")) (some (PyVal.pint 0)) = 0 := by
  refine ⟨?_, ?_, by decide, ?_⟩
  · intro pr q h
    unfold priceLine
    cases hf : pyFloat (pr.getD (PyVal.pint 0)) with
    | none => rfl
    | some p =>
      cases hi : pyInt (q.getD (PyVal.pint 1)) with
      | none => rfl
      | some n =>
        rcases h with h | h
        · rw [hf] at h; exact absurd h (by simp)
        · rw [hi] at h; exact absurd h (by simp)
  · intro ms
    simp [processMedicines, Function.comp_def]
  · have h1 : pyFloat (PyVal.pstr "12.50") = some (mkRat 25 2) := by decide
    have h2 : priceLine (some (PyVal.pstr "12.50")) (some (PyVal.pint 0)) =
        mkRat 25 2 * ((0 : ℤ) : ℚ) := by
      simp [priceLine, h1, pyInt]
    rw [h2, Rat.mkRat_eq_div]
    norm_num

/-- Witness for C2 (amended) at a concrete input: a `null` price raises in
`float()`, so the subtotal is `0`. -/
theorem priceLine_failsClosed_witness :
    priceLine (some PyVal.pnull) (some (PyVal.pint 2)) = 0 :=
  priceLine_failsClosed_amended.1 (some PyVal.pnull) (some (PyVal.pint 2)) (Or.inl rfl)

/-- Auxiliary: the cost loop's left fold equals the sum of the per-line
subtotals, for any starting accumulator. -/
theorem foldl_lineSubtotal (ms : List Medicine) :
    ∀ a : ℚ, ms.foldl (fun acc m => acc + lineSubtotal m) a = a + (ms.map lineSubtotal).sum := by
  induction ms with
  | nil => intro a; simp
  | cons m t ih =>
    intro a
    simp only [List.foldl_cons, List.map_cons, List.sum_cons, ih]
    ring

/-- C4.  The handler recomputes everything server-side: the subtotal it
stores for a line is a function of the line's `(price_raw, quantity)` pair
only (any client-supplied `subtotal` value is overwritten and never read),
the total is exactly the sum of the recomputed per-line subtotals, and the
total of an empty medicines list is `0`. -/
theorem total_recomputed_server_side :
    (∀ (m : Medicine) (s s' : Option PyVal),
        lineSubtotal { m with client_subtotal := s } =
          lineSubtotal { m with client_subtotal := s' }) ∧
    (∀ ms : List Medicine,
        totalCost ms = ((processMedicines ms).map Prod.snd).sum) ∧
    totalCost [] = 0 := by
  refine ⟨fun m s s' => rfl, ?_, rfl⟩
  intro ms
  unfold totalCost
  rw [foldl_lineSubtotal ms 0]
  simp [processMedicines, List.map_map, Function.comp_def]

/-- C5.  A details query whose normalized triple matches zero records
answers with the distinct 404 `notFound` signal; when at least one record
matches it answers with the candidate list of exactly the matching
records; and `notFound` is distinct from every successful list, the empty
one included. -/
theorem get_details_notFound_or_options
    (idx : List Record) (generic strength drug_type : Option String) :
    (filteredRecords idx (pyLower (pyStrip (generic.getD ""))) (pyStrip (strength.getD ""))
        (pyStrip (drug_type.getD "")) = [] →
      get_details idx generic strength drug_type = DetailsResult.notFound) ∧
    (filteredRecords idx (pyLower (pyStrip (generic.getD ""))) (pyStrip (strength.getD ""))
        (pyStrip (drug_type.getD "")) ≠ [] →
      get_details idx generic strength drug_type =
        DetailsResult.options
          ((filteredRecords idx (pyLower (pyStrip (generic.getD "")))
            (pyStrip (strength.getD "")) (pyStrip (drug_type.getD ""))).map mkOption)) ∧
    (∀ l : List LineCandidate, DetailsResult.notFound ≠ DetailsResult.options l) := by
  refine ⟨?_, ?_, fun l h => by cases h⟩
  · intro h
    unfold get_details
    rw [h]
    rfl
  · intro h
    unfold get_details
    rw [if_neg (by simpa [List.isEmpty_iff] using h)]

/-- Witness for C5: the empty catalog answers `notFound`; a catalog holding
one matching record answers with that record's candidate. -/
theorem get_details_witness :
    get_details [] (some "a") (some "b") (some "c") = DetailsResult.notFound ∧
    get_details [rec0] (some " Paracetamol ") (some "500mg") (some "Tablet") =
      DetailsResult.options [mkOption rec0] := by
  refine ⟨(get_details_notFound_or_options [] (some "a") (some "b") (some "c")).1 rfl, ?_⟩
  have h2 := (get_details_notFound_or_options [rec0] (some " Paracetamol ") (some "500mg")
    (some "Tablet")).2.1 (by decide)
  have h3 : filteredRecords [rec0] (pyLower (pyStrip " Paracetamol ")) (pyStrip "500mg")
      (pyStrip "Tablet") = [rec0] := by decide
  simp only [Option.getD_some] at h2
  rw [h3] at h2
  exact h2

/-- C6.  For every catalog, a strengths-and-types query with a missing
generic key, or with one whose stripped lower-cased form is empty, answers
the pair of empty lists — a successful response, not an error. -/
theorem get_options_empty_key (idx : List Record) :
    get_options idx none = ([], []) ∧
    ∀ s : String, pyLower (pyStrip s) = "" → get_options idx (some s) = ([], []) := by
  constructor
  · rfl
  · intro s h
    unfold get_options
    simp only [Option.getD_some, h]
    rfl

/-- Witness for C6: a whitespace-only generic key against a non-empty
catalog yields `([], [])`. -/
theorem get_options_empty_key_witness :
    get_options [rec0] (some " ") = ([], []) :=
  (get_options_empty_key [rec0]).2 " " (by decide)

/-- C7 counterexample: a raw row whose `Strength` cell is the whitespace
string `" "` is not `NaN`, so `dropna` keeps it; the subsequent strip
leaves an indexed record whose strength is the empty string — the claim
that every indexed record has a non-empty strength is false. -/
theorem buildIndex_blankStrength_counterexample :
    (buildIndex [rawBlankStrength]).map Record.Strength = [""] := by
  decide

/-- C7 amended: every record of the built index has a non-negative
canonical price and derives from a source row whose `Strength` cell is
present (not `NaN`) by the cleaning step — generic key stripped and
lower-cased, strength and type stripped with case preserved, price
normalized.  Only rows with a *missing* strength cell are excluded;
a whitespace-only strength survives as the empty string (see the
counterexample). -/
theorem buildIndex_invariant_amended (raws : List RawRecord) (r : Record)
    (h : r ∈ buildIndex raws) :
    0 ≤ r.Price_Clean ∧
    ∃ raw ∈ raws, raw.Strength.isSome ∧ r = cleanRecord raw := by
  unfold buildIndex at h
  rcases List.mem_map.mp h with ⟨raw, hmem, hr⟩
  rcases List.mem_filter.mp hmem with ⟨hraws, hsome⟩
  refine ⟨?_, raw, hraws, hsome, hr.symm⟩
  rw [← hr]
  exact Price_Clean_nonneg raw.Price

/-- Witness for C7 (amended) on a concrete one-row catalog. -/
theorem buildIndex_invariant_witness :
    0 ≤ (cleanRecord rawGood).Price_Clean ∧
    ∃ raw ∈ [rawGood], raw.Strength.isSome ∧ cleanRecord rawGood = cleanRecord raw :=
  buildIndex_invariant_amended [rawGood] (cleanRecord rawGood) (by decide)

/-- C8.  Document assembly applies defaulting policy rather than erroring:
a missing `patient_name` key yields the sentinel `"Unknown"` and a missing
`next_appointment` key yields the sentinel `"As Advised"`. -/
theorem assemble_defaults (req : BuildRequest) (d : String) :
    (req.patient_name = none → (assembleDoc req d).patient_name = "Unknown") ∧
    (req.next_appointment = none → (assembleDoc req d).next_appointment = "As Advised") := by
  constructor <;> intro h <;> simp [assembleDoc, h]

/-- Witness for C8: the empty request takes both sentinels. -/
theorem assemble_defaults_witness :
    (assembleDoc emptyRequest "01-01-2025").patient_name = "Unknown" ∧
    (assembleDoc emptyRequest "01-01-2025").next_appointment = "As Advised" :=
  ⟨(assemble_defaults emptyRequest "01-01-2025").1 rfl,
   (assemble_defaults emptyRequest "01-01-2025").2 rfl⟩

/-- C10.  An array payload is handled by taking its first element as the
request, and the empty array is treated as the empty object, so every
field defaults: patient `"Unknown"`, doctor `"Dr. Unknown"`, no medicines,
total `0`. -/
theorem generate_pdf_array_payload :
    (∀ (r : BuildRequest) (rs : List BuildRequest) (d : String),
        generate_pdf (Payload.arr (r :: rs)) d = generate_pdf (Payload.obj r) d) ∧
    (∀ d : String,
        generate_pdf (Payload.arr []) d = assembleDoc emptyRequest d ∧
        (generate_pdf (Payload.arr []) d).patient_name = "Unknown" ∧
        (generate_pdf (Payload.arr []) d).doctor_name = "Dr. Unknown" ∧
        (generate_pdf (Payload.arr []) d).medicines = [] ∧
        (generate_pdf (Payload.arr []) d).total_cost = 0) :=
  ⟨fun _ _ _ => rfl, fun _ => ⟨rfl, rfl, rfl, rfl, rfl⟩⟩

end Prescription
